import Mathlib

/-!
Verification development for the route53-exporter program.

The program exports Route53 hosted zones to a JSON file.  We embed:
  * the provider (AWS SDK) wire types used by the program (`types` namespace),
  * the export schema and its field-for-field mapper (`Export` namespace,
    mirroring the Rust `mod export`),
  * serde-style JSON serialization of the export schema and a decoder for it,
  * the orchestration of `main` (zone listing, selection prompt, record
    fetching, serialization) as explicit state passing over an environment
    of provider calls, with failures as `Except` errors.
-/

namespace Route53

/-! Provider wire types (from the AWS SDK, as consumed by the program). -/

namespace types

/-- Provider record-type enumeration (`RrType`); `as_str` yields the
provider's symbolic name. -/
inductive RrType where
  | a | aaaa | caa | cname | ds | https | mx | naptr | ns | ptr
  | soa | spf | srv | sshfp | svcb | tlsa | txt
deriving DecidableEq

def RrType.as_str : RrType → String
  | .a => "A"
  | .aaaa => "AAAA"
  | .caa => "CAA"
  | .cname => "CNAME"
  | .ds => "DS"
  | .https => "HTTPS"
  | .mx => "MX"
  | .naptr => "NAPTR"
  | .ns => "NS"
  | .ptr => "PTR"
  | .soa => "SOA"
  | .spf => "SPF"
  | .srv => "SRV"
  | .sshfp => "SSHFP"
  | .svcb => "SVCB"
  | .tlsa => "TLSA"
  | .txt => "TXT"

/-- Provider region enumeration for latency records; `as_str` yields the
provider's symbolic name.  (Representative constructors of the SDK enum.) -/
inductive ResourceRecordSetRegion where
  | usEast1 | usEast2 | usWest1 | usWest2 | euWest1 | euCentral1
  | apSoutheast1 | apNortheast1 | saEast1 | cnNorth1
deriving DecidableEq

def ResourceRecordSetRegion.as_str : ResourceRecordSetRegion → String
  | .usEast1 => "us-east-1"
  | .usEast2 => "us-east-2"
  | .usWest1 => "us-west-1"
  | .usWest2 => "us-west-2"
  | .euWest1 => "eu-west-1"
  | .euCentral1 => "eu-central-1"
  | .apSoutheast1 => "ap-southeast-1"
  | .apNortheast1 => "ap-northeast-1"
  | .saEast1 => "sa-east-1"
  | .cnNorth1 => "cn-north-1"

/-- Provider failover enumeration; `as_str` yields the provider's
symbolic name. -/
inductive ResourceRecordSetFailover where
  | primary | secondary
deriving DecidableEq

def ResourceRecordSetFailover.as_str : ResourceRecordSetFailover → String
  | .primary => "PRIMARY"
  | .secondary => "SECONDARY"

structure GeoLocation where
  continent_code : Option String
  country_code : Option String
  subdivision_code : Option String
deriving DecidableEq

structure ResourceRecord where
  value : String
deriving DecidableEq

structure AliasTarget where
  hosted_zone_id : String
  dns_name : String
  evaluate_target_health : Bool
deriving DecidableEq

structure CidrRoutingConfig where
  collection_id : String
  location_name : String
deriving DecidableEq

structure Coordinates where
  latitude : String
  longitude : String
deriving DecidableEq

structure GeoProximityLocation where
  aws_region : Option String
  local_zone_group : Option String
  coordinates : Option Coordinates
  bias : Option Int
deriving DecidableEq

structure ResourceRecordSet where
  name : String
  type : RrType
  set_identifier : Option String
  weight : Option Int
  region : Option ResourceRecordSetRegion
  geo_location : Option GeoLocation
  failover : Option ResourceRecordSetFailover
  multi_value_answer : Option Bool
  ttl : Option Int
  resource_records : Option (List ResourceRecord)
  alias_target : Option AliasTarget
  health_check_id : Option String
  traffic_policy_instance_id : Option String
  cidr_routing_config : Option CidrRoutingConfig
  geo_proximity_location : Option GeoProximityLocation
deriving DecidableEq

/-- Provider identity of a hosted zone (the fields the program uses). -/
structure HostedZone where
  id : String
  name : String
deriving DecidableEq

end types

/-! The export schema (Rust `mod export`) and the `From` conversions. -/

namespace Export

structure GeoLocation where
  continent_code : Option String
  country_code : Option String
  subdivision_code : Option String
deriving DecidableEq

/-- Rust `impl From<types::GeoLocation> for GeoLocation`. -/
def GeoLocation.fromProvider (value : types.GeoLocation) : GeoLocation :=
  { continent_code := value.continent_code
    country_code := value.country_code
    subdivision_code := value.subdivision_code }

structure ResourceRecord where
  value : String
deriving DecidableEq

/-- Rust `impl From<types::ResourceRecord> for ResourceRecord`. -/
def ResourceRecord.fromProvider (value : types.ResourceRecord) : ResourceRecord :=
  { value := value.value }

structure AliasTarget where
  hosted_zone_id : String
  dns_name : String
  evaluate_target_health : Bool
deriving DecidableEq

/-- Rust `impl From<types::AliasTarget> for AliasTarget`. -/
def AliasTarget.fromProvider (value : types.AliasTarget) : AliasTarget :=
  { hosted_zone_id := value.hosted_zone_id
    dns_name := value.dns_name
    evaluate_target_health := value.evaluate_target_health }

structure CidrRoutingConfig where
  collection_id : String
  location_name : String
deriving DecidableEq

/-- Rust `impl From<types::CidrRoutingConfig> for CidrRoutingConfig`. -/
def CidrRoutingConfig.fromProvider (value : types.CidrRoutingConfig) : CidrRoutingConfig :=
  { collection_id := value.collection_id
    location_name := value.location_name }

structure Coordinates where
  latitude : String
  longitude : String
deriving DecidableEq

/-- Rust `impl From<types::Coordinates> for Coordinates`. -/
def Coordinates.fromProvider (value : types.Coordinates) : Coordinates :=
  { latitude := value.latitude
    longitude := value.longitude }

structure GeoProximityLocation where
  aws_region : Option String
  local_zone_group : Option String
  coordinates : Option Coordinates
  bias : Option Int
deriving DecidableEq

/-- Rust `impl From<types::GeoProximityLocation> for GeoProximityLocation`. -/
def GeoProximityLocation.fromProvider (value : types.GeoProximityLocation) :
    GeoProximityLocation :=
  { aws_region := value.aws_region
    local_zone_group := value.local_zone_group
    coordinates := value.coordinates.map Coordinates.fromProvider
    bias := value.bias }

structure ResourceRecordSet where
  name : String
  type : String
  set_identifier : Option String
  weight : Option Int
  region : Option String
  geo_location : Option GeoLocation
  failover : Option String
  multi_value_answer : Option Bool
  ttl : Option Int
  resource_records : Option (List ResourceRecord)
  alias_target : Option AliasTarget
  health_check_id : Option String
  traffic_policy_instance_id : Option String
  cidr_routing_config : Option CidrRoutingConfig
  geo_proximity_location : Option GeoProximityLocation
deriving DecidableEq

/-- Rust `impl From<types::ResourceRecordSet> for ResourceRecordSet`
(the Record Mapper). -/
def ResourceRecordSet.fromProvider (value : types.ResourceRecordSet) :
    ResourceRecordSet :=
  { name := value.name
    type := value.type.as_str
    set_identifier := value.set_identifier
    weight := value.weight
    region := value.region.map (fun r => r.as_str)
    geo_location := value.geo_location.map GeoLocation.fromProvider
    failover := value.failover.map (fun f => f.as_str)
    multi_value_answer := value.multi_value_answer
    ttl := value.ttl
    resource_records :=
      value.resource_records.map (fun records => records.map ResourceRecord.fromProvider)
    alias_target := value.alias_target.map AliasTarget.fromProvider
    health_check_id := value.health_check_id
    traffic_policy_instance_id := value.traffic_policy_instance_id
    cidr_routing_config := value.cidr_routing_config.map CidrRoutingConfig.fromProvider
    geo_proximity_location :=
      value.geo_proximity_location.map GeoProximityLocation.fromProvider }

structure HostedZoneExport where
  id : String
  name : String
  record_sets : List ResourceRecordSet
deriving DecidableEq

/-- Rust `HostedZoneExport::new` (the Zone Export Builder). -/
def HostedZoneExport.new (id name : String)
    (record_sets : List types.ResourceRecordSet) : HostedZoneExport :=
  { id := id
    name := name
    record_sets := record_sets.map ResourceRecordSet.fromProvider }

end Export

/-! JSON values, modelling serde_json's data model.  `serde_json::to_string_pretty`
on a `#[derive(Serialize)]` struct emits an object with one key per field in
declaration order; an `Option` field without `skip_serializing_if` is emitted
as the key with value `null` when `None`. -/

inductive Json where
  | null : Json
  | bool : Bool → Json
  | num : Int → Json
  | str : String → Json
  | arr : List Json → Json
  | obj : List (String × Json) → Json
deriving Inhabited

def Json.isObj : Json → Bool
  | .obj _ => true
  | _ => false

def Json.isArr : Json → Bool
  | .arr _ => true
  | _ => false

/-- Keys of a JSON object, in emission order. -/
def Json.keys : Json → List String
  | .obj kvs => kvs.map Prod.fst
  | _ => []

/-- Look a key up in a JSON object. -/
def Json.getKey (j : Json) (k : String) : Option Json :=
  match j with
  | .obj kvs => kvs.lookup k
  | _ => none

/-- Serde serialization of an `Option` field: `None` becomes `null`. -/
def optJson (f : α → Json) : Option α → Json
  | none => Json.null
  | some a => f a

namespace Export

def geoLocationToJson (g : GeoLocation) : Json :=
  .obj [("continent_code", optJson Json.str g.continent_code),
        ("country_code", optJson Json.str g.country_code),
        ("subdivision_code", optJson Json.str g.subdivision_code)]

def resourceRecordToJson (r : ResourceRecord) : Json :=
  .obj [("value", Json.str r.value)]

def aliasTargetToJson (a : AliasTarget) : Json :=
  .obj [("hosted_zone_id", Json.str a.hosted_zone_id),
        ("dns_name", Json.str a.dns_name),
        ("evaluate_target_health", Json.bool a.evaluate_target_health)]

def cidrRoutingConfigToJson (c : CidrRoutingConfig) : Json :=
  .obj [("collection_id", Json.str c.collection_id),
        ("location_name", Json.str c.location_name)]

def coordinatesToJson (c : Coordinates) : Json :=
  .obj [("latitude", Json.str c.latitude),
        ("longitude", Json.str c.longitude)]

def geoProximityLocationToJson (g : GeoProximityLocation) : Json :=
  .obj [("aws_region", optJson Json.str g.aws_region),
        ("local_zone_group", optJson Json.str g.local_zone_group),
        ("coordinates", optJson coordinatesToJson g.coordinates),
        ("bias", optJson Json.num g.bias)]

def resourceRecordSetToJson (s : ResourceRecordSet) : Json :=
  .obj [("name", Json.str s.name),
        ("type", Json.str s.type),
        ("set_identifier", optJson Json.str s.set_identifier),
        ("weight", optJson Json.num s.weight),
        ("region", optJson Json.str s.region),
        ("geo_location", optJson geoLocationToJson s.geo_location),
        ("failover", optJson Json.str s.failover),
        ("multi_value_answer", optJson Json.bool s.multi_value_answer),
        ("ttl", optJson Json.num s.ttl),
        ("resource_records",
          optJson (fun rs => Json.arr (rs.map resourceRecordToJson)) s.resource_records),
        ("alias_target", optJson aliasTargetToJson s.alias_target),
        ("health_check_id", optJson Json.str s.health_check_id),
        ("traffic_policy_instance_id", optJson Json.str s.traffic_policy_instance_id),
        ("cidr_routing_config", optJson cidrRoutingConfigToJson s.cidr_routing_config),
        ("geo_proximity_location",
          optJson geoProximityLocationToJson s.geo_proximity_location)]

def hostedZoneExportToJson (h : HostedZoneExport) : Json :=
  .obj [("id", Json.str h.id),
        ("name", Json.str h.name),
        ("record_sets", Json.arr (h.record_sets.map resourceRecordSetToJson))]

end Export

/-! A reader for the export schema: re-reading the serialized JSON. -/

def Json.getStr : Json → Option String
  | .str s => some s
  | _ => none

def Json.getNum : Json → Option Int
  | .num n => some n
  | _ => none

def Json.getBool : Json → Option Bool
  | .bool b => some b
  | _ => none

/-- Read an optional field back: `null` means absent. -/
def decodeOpt (f : Json → Option α) : Json → Option (Option α)
  | .null => some none
  | j => (f j).map some

namespace Export

def decodeGeoLocation : Json → Option GeoLocation
  | .obj [("continent_code", cc), ("country_code", co), ("subdivision_code", sc)] => do
    let continent_code ← decodeOpt Json.getStr cc
    let country_code ← decodeOpt Json.getStr co
    let subdivision_code ← decodeOpt Json.getStr sc
    pure { continent_code, country_code, subdivision_code }
  | _ => none

def decodeResourceRecord : Json → Option ResourceRecord
  | .obj [("value", v)] => do
    let value ← v.getStr
    pure { value }
  | _ => none

def decodeAliasTarget : Json → Option AliasTarget
  | .obj [("hosted_zone_id", hz), ("dns_name", dn), ("evaluate_target_health", ev)] => do
    let hosted_zone_id ← hz.getStr
    let dns_name ← dn.getStr
    let evaluate_target_health ← ev.getBool
    pure { hosted_zone_id, dns_name, evaluate_target_health }
  | _ => none

def decodeCidrRoutingConfig : Json → Option CidrRoutingConfig
  | .obj [("collection_id", ci), ("location_name", ln)] => do
    let collection_id ← ci.getStr
    let location_name ← ln.getStr
    pure { collection_id, location_name }
  | _ => none

def decodeCoordinates : Json → Option Coordinates
  | .obj [("latitude", la), ("longitude", lo)] => do
    let latitude ← la.getStr
    let longitude ← lo.getStr
    pure { latitude, longitude }
  | _ => none

def decodeGeoProximityLocation : Json → Option GeoProximityLocation
  | .obj [("aws_region", ar), ("local_zone_group", lz), ("coordinates", co), ("bias", bi)] => do
    let aws_region ← decodeOpt Json.getStr ar
    let local_zone_group ← decodeOpt Json.getStr lz
    let coordinates ← decodeOpt decodeCoordinates co
    let bias ← decodeOpt Json.getNum bi
    pure { aws_region, local_zone_group, coordinates, bias }
  | _ => none

def decodeRecords : List Json → Option (List ResourceRecord)
  | [] => some []
  | j :: rest => do
    let r ← decodeResourceRecord j
    let rs ← decodeRecords rest
    pure (r :: rs)

def decodeRecordList : Json → Option (List ResourceRecord)
  | .arr js => decodeRecords js
  | _ => none

/-- Read one field of a JSON object: look its key up, then decode the value. -/
def decodeField (j : Json) (k : String) (f : Json → Option α) : Option α :=
  (j.getKey k).bind f

/-- First half of the export record-set fields, read back by key. -/
def decodeRRSHead (j : Json) :
    Option (String × String × Option String × Option Int × Option String ×
      Option GeoLocation × Option String × Option Bool) :=
  (decodeField j "name" Json.getStr).bind fun name =>
  (decodeField j "type" Json.getStr).bind fun type =>
  (decodeField j "set_identifier" (decodeOpt Json.getStr)).bind fun set_identifier =>
  (decodeField j "weight" (decodeOpt Json.getNum)).bind fun weight =>
  (decodeField j "region" (decodeOpt Json.getStr)).bind fun region =>
  (decodeField j "geo_location" (decodeOpt decodeGeoLocation)).bind fun geo_location =>
  (decodeField j "failover" (decodeOpt Json.getStr)).bind fun failover =>
  (decodeField j "multi_value_answer" (decodeOpt Json.getBool)).bind
    fun multi_value_answer =>
  some (name, type, set_identifier, weight, region, geo_location, failover,
    multi_value_answer)

/-- Second half of the export record-set fields, read back by key. -/
def decodeRRSTail (j : Json) :
    Option (Option Int × Option (List ResourceRecord) × Option AliasTarget ×
      Option String × Option String × Option CidrRoutingConfig ×
      Option GeoProximityLocation) :=
  (decodeField j "ttl" (decodeOpt Json.getNum)).bind fun ttl =>
  (decodeField j "resource_records" (decodeOpt decodeRecordList)).bind
    fun resource_records =>
  (decodeField j "alias_target" (decodeOpt decodeAliasTarget)).bind fun alias_target =>
  (decodeField j "health_check_id" (decodeOpt Json.getStr)).bind fun health_check_id =>
  (decodeField j "traffic_policy_instance_id" (decodeOpt Json.getStr)).bind
    fun traffic_policy_instance_id =>
  (decodeField j "cidr_routing_config" (decodeOpt decodeCidrRoutingConfig)).bind
    fun cidr_routing_config =>
  (decodeField j "geo_proximity_location" (decodeOpt decodeGeoProximityLocation)).bind
    fun geo_proximity_location =>
  some (ttl, resource_records, alias_target, health_check_id,
    traffic_policy_instance_id, cidr_routing_config, geo_proximity_location)

/-- Read one export record set back from its JSON object, by key. -/
def decodeResourceRecordSet (j : Json) : Option ResourceRecordSet :=
  (decodeRRSHead j).bind fun a =>
  (decodeRRSTail j).bind fun b =>
  some { name := a.1, type := a.2.1, set_identifier := a.2.2.1,
         weight := a.2.2.2.1, region := a.2.2.2.2.1,
         geo_location := a.2.2.2.2.2.1, failover := a.2.2.2.2.2.2.1,
         multi_value_answer := a.2.2.2.2.2.2.2,
         ttl := b.1, resource_records := b.2.1, alias_target := b.2.2.1,
         health_check_id := b.2.2.2.1, traffic_policy_instance_id := b.2.2.2.2.1,
         cidr_routing_config := b.2.2.2.2.2.1,
         geo_proximity_location := b.2.2.2.2.2.2 }

end Export

/-! Orchestration (`main`, `get_hosted_zone`, `get_export_data`).  Provider
calls and the interactive prompt are an environment of fallible operations;
Rust's `?` on a failed call is `Except` error propagation. -/

/-- Failure conditions that abort the run. -/
inductive Err where
  | providerError : String → Err
  | interactionAborted : Err
deriving DecidableEq

/-- Rust `enum HZOption`: the options of the selection prompt. -/
inductive HZOption where
  | All : List types.HostedZone → HZOption
  | HZ : types.HostedZone → HZOption
deriving DecidableEq

/-- Rust `impl Display for HZOption`: the label shown for an option. -/
def HZOption.display : HZOption → String
  | .All _ => "All"
  | .HZ hz => hz.name

/-- The external collaborators of one run: provider calls and the prompt. -/
structure Env where
  get_hosted_zone_count : Except Err Int
  list_hosted_zones : Except Err (List types.HostedZone)
  list_resource_record_sets : String → Except Err (List types.ResourceRecordSet)
  prompt : List HZOption → Except Err HZOption

/-- The option list built by `get_hosted_zone`: `options.insert(0, All(zones))`
after collecting one `HZ` option per zone. -/
def selection_options (hosted_zones : List types.HostedZone) : List HZOption :=
  HZOption.All hosted_zones :: hosted_zones.map HZOption.HZ

/-- Rust `get_hosted_zone`: count zones, list zones, prompt for a choice. -/
def get_hosted_zone (env : Env) : Except Err HZOption := do
  let _hosted_zone_count ← env.get_hosted_zone_count
  let hosted_zones ← env.list_hosted_zones
  env.prompt (selection_options hosted_zones)

/-- Rust `get_export_data`: list a zone's record sets and build its export. -/
def get_export_data (env : Env) (hz : types.HostedZone) :
    Except Err Export.HostedZoneExport := do
  let records ← env.list_resource_record_sets hz.id
  pure (Export.HostedZoneExport.new hz.id hz.name records)

/-- The `for hz in hosted_zones { exports.push(get_export_data(..)?) }` loop
of `main`: exports accumulate in zone order, the first failure aborts. -/
def export_each (env : Env) : List types.HostedZone →
    Except Err (List Export.HostedZoneExport)
  | [] => pure []
  | hz :: rest => do
    let e ← get_export_data env hz
    let es ← export_each env rest
    pure (e :: es)

/-- Rust `main` after client setup: resolve the selection, build the export
data (array of exports for `All`, single export object otherwise), and on
success write it to the export file.  The returned JSON value is the content
of the one `fs::write`; an error means the run aborted before the write. -/
def runMain (env : Env) : Except Err Json := do
  let hz ← get_hosted_zone env
  match hz with
  | .All hosted_zones => do
    let exports ← export_each env hosted_zones
    pure (Json.arr (exports.map Export.hostedZoneExportToJson))
  | .HZ hz => do
    let e ← get_export_data env hz
    pure (Export.hostedZoneExportToJson e)

/-- Contents written to the export file by a run: one write on success,
none on an aborted run. -/
def writtenFiles : Except Err Json → List Json
  | .ok j => [j]
  | .error _ => []

/-- Process exit code of a run: `0` on success, nonzero on failure. -/
def exitCode : Except Err Json → Nat
  | .ok _ => 0
  | .error _ => 1

/-! Concrete sample zones, records and environments. -/

def zoneA : types.HostedZone := { id := "Z1", name := "example.com." }

def zoneB : types.HostedZone := { id := "Z2", name := "other.org." }

/-- A simple A record: `ttl=300`, one value, all other optional fields absent. -/
def simpleARecord : types.ResourceRecordSet :=
  { name := "example.com.", type := .a, set_identifier := none, weight := none,
    region := none, geo_location := none, failover := none,
    multi_value_answer := none, ttl := some 300,
    resource_records := some [{ value := "1.2.3.4" }],
    alias_target := none, health_check_id := none,
    traffic_policy_instance_id := none, cidr_routing_config := none,
    geo_proximity_location := none }

/-- An operator who picks the first option (the "All" sentinel). -/
def promptFirst : List HZOption → Except Err HZOption
  | o :: _ => .ok o
  | [] => .error .interactionAborted

def envTwoZones : Env :=
  { get_hosted_zone_count := .ok 2
    list_hosted_zones := .ok [zoneA, zoneB]
    list_resource_record_sets := fun _ => .ok [simpleARecord]
    prompt := promptFirst }

def envOneZone : Env :=
  { get_hosted_zone_count := .ok 2
    list_hosted_zones := .ok [zoneA, zoneB]
    list_resource_record_sets := fun _ => .ok [simpleARecord]
    prompt := fun _ => .ok (HZOption.HZ zoneA) }

def envNoZones : Env :=
  { get_hosted_zone_count := .ok 0
    list_hosted_zones := .ok []
    list_resource_record_sets := fun _ => .ok []
    prompt := promptFirst }

def envAborted : Env :=
  { get_hosted_zone_count := .ok 2
    list_hosted_zones := .ok [zoneA, zoneB]
    list_resource_record_sets := fun _ => .ok [simpleARecord]
    prompt := fun _ => .error .interactionAborted }

/-! Theorems. -/

/-- C1: the Record Mapper maps each of the thirteen optional fields to absent
in the export exactly when it is absent in the source; present values are
carried over (directly, or through the per-type conversion), so no default
is ever substituted for an absent field — in particular an absent
`resource_records` sequence maps to `none`, not to an empty sequence. -/
theorem mapper_presence_preserving (v : types.ResourceRecordSet) :
    ((Export.ResourceRecordSet.fromProvider v).set_identifier = none ↔
      v.set_identifier = none) ∧
    ((Export.ResourceRecordSet.fromProvider v).weight = none ↔ v.weight = none) ∧
    ((Export.ResourceRecordSet.fromProvider v).region = none ↔ v.region = none) ∧
    ((Export.ResourceRecordSet.fromProvider v).geo_location = none ↔
      v.geo_location = none) ∧
    ((Export.ResourceRecordSet.fromProvider v).failover = none ↔ v.failover = none) ∧
    ((Export.ResourceRecordSet.fromProvider v).multi_value_answer = none ↔
      v.multi_value_answer = none) ∧
    ((Export.ResourceRecordSet.fromProvider v).ttl = none ↔ v.ttl = none) ∧
    ((Export.ResourceRecordSet.fromProvider v).resource_records = none ↔
      v.resource_records = none) ∧
    ((Export.ResourceRecordSet.fromProvider v).alias_target = none ↔
      v.alias_target = none) ∧
    ((Export.ResourceRecordSet.fromProvider v).health_check_id = none ↔
      v.health_check_id = none) ∧
    ((Export.ResourceRecordSet.fromProvider v).traffic_policy_instance_id = none ↔
      v.traffic_policy_instance_id = none) ∧
    ((Export.ResourceRecordSet.fromProvider v).cidr_routing_config = none ↔
      v.cidr_routing_config = none) ∧
    ((Export.ResourceRecordSet.fromProvider v).geo_proximity_location = none ↔
      v.geo_proximity_location = none) ∧
    (∀ rs, v.resource_records = some rs →
      (Export.ResourceRecordSet.fromProvider v).resource_records =
        some (rs.map Export.ResourceRecord.fromProvider)) := by
  refine ⟨?_, ?_, ?_, ?_, ?_, ?_, ?_, ?_, ?_, ?_, ?_, ?_, ?_, ?_⟩ <;>
    simp [Export.ResourceRecordSet.fromProvider, Option.map_eq_none']
  intro rs h
  simp [h]

/-- Witness for C1 at a concrete simple A record with one resource record. -/
theorem mapper_presence_preserving_witness :
    (Export.ResourceRecordSet.fromProvider
      { name := "example.com.", type := .a, set_identifier := none, weight := none,
        region := none, geo_location := none, failover := none,
        multi_value_answer := none, ttl := some 300,
        resource_records := some [{ value := "1.2.3.4" }],
        alias_target := none, health_check_id := none,
        traffic_policy_instance_id := none, cidr_routing_config := none,
        geo_proximity_location := none }).resource_records
      = some [{ value := "1.2.3.4" }] :=
  (mapper_presence_preserving _).2.2.2.2.2.2.2.2.2.2.2.2.2 [{ value := "1.2.3.4" }] rfl

/-- C8: the Record Mapper performs no validation, clamping or normalization:
present scalar values (`ttl` — even zero —, `weight`, `bias`, identifiers,
the `multi_value_answer` flag) are passed through unchanged, and
`Coordinates` latitude/longitude are carried over as their exact source
strings, with no numeric parsing or rounding. -/
theorem mapper_no_normalization (v : types.ResourceRecordSet)
    (g : types.GeoProximityLocation) (c : types.Coordinates) :
    (Export.ResourceRecordSet.fromProvider v).name = v.name ∧
    (Export.ResourceRecordSet.fromProvider v).ttl = v.ttl ∧
    (Export.ResourceRecordSet.fromProvider v).weight = v.weight ∧
    (Export.ResourceRecordSet.fromProvider v).set_identifier = v.set_identifier ∧
    (Export.ResourceRecordSet.fromProvider v).multi_value_answer =
      v.multi_value_answer ∧
    (Export.ResourceRecordSet.fromProvider v).health_check_id = v.health_check_id ∧
    (Export.ResourceRecordSet.fromProvider v).traffic_policy_instance_id =
      v.traffic_policy_instance_id ∧
    (Export.GeoProximityLocation.fromProvider g).bias = g.bias ∧
    (Export.GeoProximityLocation.fromProvider g).aws_region = g.aws_region ∧
    (Export.GeoProximityLocation.fromProvider g).local_zone_group =
      g.local_zone_group ∧
    (Export.Coordinates.fromProvider c).latitude = c.latitude ∧
    (Export.Coordinates.fromProvider c).longitude = c.longitude :=
  ⟨rfl, rfl, rfl, rfl, rfl, rfl, rfl, rfl, rfl, rfl, rfl, rfl⟩

/-- C9: the enumeration-typed fields `type`, `region` and `failover` are
converted to the provider's symbolic name via `as_str` (never a numeric code
or a wire-type structure), and for `region` and `failover` the conversion is
applied under `Option.map`, i.e. only when the field is present (absent stays
absent). -/
theorem mapper_enum_to_string (v : types.ResourceRecordSet) :
    (Export.ResourceRecordSet.fromProvider v).type = v.type.as_str ∧
    (Export.ResourceRecordSet.fromProvider v).region =
      v.region.map types.ResourceRecordSetRegion.as_str ∧
    (Export.ResourceRecordSet.fromProvider v).failover =
      v.failover.map types.ResourceRecordSetFailover.as_str ∧
    (v.region = none →
      (Export.ResourceRecordSet.fromProvider v).region = none) ∧
    (v.failover = none →
      (Export.ResourceRecordSet.fromProvider v).failover = none) := by
  refine ⟨rfl, rfl, rfl, ?_, ?_⟩ <;> intro h <;>
    simp [Export.ResourceRecordSet.fromProvider, h]

/-! Round-trip lemmas: reading back what the serializer wrote. -/

theorem decodeOpt_optJson (f : α → Json) (g : Json → Option α)
    (hf : ∀ a, f a ≠ Json.null) (hg : ∀ a, g (f a) = some a) (x : Option α) :
    decodeOpt g (optJson f x) = some x := by
  cases x with
  | none => rfl
  | some a =>
    have h1 : decodeOpt g (f a) = (g (f a)).map some := by
      cases hfa : f a <;> first | exact absurd hfa (hf a) | rfl
    simp only [optJson]
    rw [h1, hg a]
    rfl

theorem decodeOpt_str (x : Option String) :
    decodeOpt Json.getStr (optJson Json.str x) = some x :=
  decodeOpt_optJson Json.str Json.getStr (fun _ h => Json.noConfusion h)
    (fun _ => rfl) x

theorem decodeOpt_num (x : Option Int) :
    decodeOpt Json.getNum (optJson Json.num x) = some x :=
  decodeOpt_optJson Json.num Json.getNum (fun _ h => Json.noConfusion h)
    (fun _ => rfl) x

theorem decodeOpt_bool (x : Option Bool) :
    decodeOpt Json.getBool (optJson Json.bool x) = some x :=
  decodeOpt_optJson Json.bool Json.getBool (fun _ h => Json.noConfusion h)
    (fun _ => rfl) x

namespace Export

theorem decodeGeoLocation_toJson (g : GeoLocation) :
    decodeGeoLocation (geoLocationToJson g) = some g := by
  obtain ⟨cc, co, sc⟩ := g
  simp [geoLocationToJson, decodeGeoLocation, decodeOpt_str]

theorem decodeResourceRecord_toJson (r : ResourceRecord) :
    decodeResourceRecord (resourceRecordToJson r) = some r := by
  obtain ⟨v⟩ := r
  rfl

theorem decodeAliasTarget_toJson (a : AliasTarget) :
    decodeAliasTarget (aliasTargetToJson a) = some a := by
  obtain ⟨hz, dn, ev⟩ := a
  rfl

theorem decodeCidrRoutingConfig_toJson (c : CidrRoutingConfig) :
    decodeCidrRoutingConfig (cidrRoutingConfigToJson c) = some c := by
  obtain ⟨ci, ln⟩ := c
  rfl

theorem decodeCoordinates_toJson (c : Coordinates) :
    decodeCoordinates (coordinatesToJson c) = some c := by
  obtain ⟨la, lo⟩ := c
  rfl

theorem decodeGeoProximityLocation_toJson (g : GeoProximityLocation) :
    decodeGeoProximityLocation (geoProximityLocationToJson g) = some g := by
  obtain ⟨ar, lz, co, bi⟩ := g
  simp [geoProximityLocationToJson, decodeGeoProximityLocation, decodeOpt_str,
    decodeOpt_num,
    decodeOpt_optJson coordinatesToJson decodeCoordinates
      (fun c h => by obtain ⟨la, lo⟩ := c; exact Json.noConfusion h)
      decodeCoordinates_toJson]

theorem decodeRecords_map (rs : List ResourceRecord) :
    decodeRecords (rs.map resourceRecordToJson) = some rs := by
  induction rs with
  | nil => rfl
  | cons r rest ih =>
    simp [decodeRecords, decodeResourceRecord_toJson r, ih]

theorem decodeRecordList_toJson (rs : List ResourceRecord) :
    decodeRecordList (Json.arr (rs.map resourceRecordToJson)) = some rs := by
  simp [decodeRecordList, decodeRecords_map]

theorem rrs_getKey_name (s : ResourceRecordSet) :
    (resourceRecordSetToJson s).getKey "name" = some (Json.str s.name) := rfl

theorem rrs_getKey_type (s : ResourceRecordSet) :
    (resourceRecordSetToJson s).getKey "type" = some (Json.str s.type) := rfl

theorem rrs_getKey_set_identifier (s : ResourceRecordSet) :
    (resourceRecordSetToJson s).getKey "set_identifier" =
      some (optJson Json.str s.set_identifier) := rfl

theorem rrs_getKey_weight (s : ResourceRecordSet) :
    (resourceRecordSetToJson s).getKey "weight" =
      some (optJson Json.num s.weight) := rfl

theorem rrs_getKey_region (s : ResourceRecordSet) :
    (resourceRecordSetToJson s).getKey "region" =
      some (optJson Json.str s.region) := rfl

theorem rrs_getKey_geo_location (s : ResourceRecordSet) :
    (resourceRecordSetToJson s).getKey "geo_location" =
      some (optJson geoLocationToJson s.geo_location) := rfl

theorem rrs_getKey_failover (s : ResourceRecordSet) :
    (resourceRecordSetToJson s).getKey "failover" =
      some (optJson Json.str s.failover) := rfl

theorem rrs_getKey_multi_value_answer (s : ResourceRecordSet) :
    (resourceRecordSetToJson s).getKey "multi_value_answer" =
      some (optJson Json.bool s.multi_value_answer) := rfl

theorem rrs_getKey_ttl (s : ResourceRecordSet) :
    (resourceRecordSetToJson s).getKey "ttl" =
      some (optJson Json.num s.ttl) := rfl

theorem rrs_getKey_resource_records (s : ResourceRecordSet) :
    (resourceRecordSetToJson s).getKey "resource_records" =
      some (optJson (fun rs => Json.arr (rs.map resourceRecordToJson))
        s.resource_records) := rfl

theorem rrs_getKey_alias_target (s : ResourceRecordSet) :
    (resourceRecordSetToJson s).getKey "alias_target" =
      some (optJson aliasTargetToJson s.alias_target) := rfl

theorem rrs_getKey_health_check_id (s : ResourceRecordSet) :
    (resourceRecordSetToJson s).getKey "health_check_id" =
      some (optJson Json.str s.health_check_id) := rfl

theorem rrs_getKey_traffic_policy_instance_id (s : ResourceRecordSet) :
    (resourceRecordSetToJson s).getKey "traffic_policy_instance_id" =
      some (optJson Json.str s.traffic_policy_instance_id) := rfl

theorem rrs_getKey_cidr_routing_config (s : ResourceRecordSet) :
    (resourceRecordSetToJson s).getKey "cidr_routing_config" =
      some (optJson cidrRoutingConfigToJson s.cidr_routing_config) := rfl

theorem rrs_getKey_geo_proximity_location (s : ResourceRecordSet) :
    (resourceRecordSetToJson s).getKey "geo_proximity_location" =
      some (optJson geoProximityLocationToJson s.geo_proximity_location) := rfl

theorem decodeRRSHead_toJson (s : ResourceRecordSet) :
    decodeRRSHead (resourceRecordSetToJson s) =
      some (s.name, s.type, s.set_identifier, s.weight, s.region, s.geo_location,
        s.failover, s.multi_value_answer) := by
  simp [decodeRRSHead, decodeField, rrs_getKey_name, rrs_getKey_type,
    rrs_getKey_set_identifier, rrs_getKey_weight, rrs_getKey_region,
    rrs_getKey_geo_location, rrs_getKey_failover, rrs_getKey_multi_value_answer,
    Json.getStr, decodeOpt_str, decodeOpt_num, decodeOpt_bool,
    decodeOpt_optJson geoLocationToJson decodeGeoLocation
      (fun g h => by obtain ⟨a, b, c⟩ := g; exact Json.noConfusion h)
      decodeGeoLocation_toJson]

theorem decodeRRSTail_toJson (s : ResourceRecordSet) :
    decodeRRSTail (resourceRecordSetToJson s) =
      some (s.ttl, s.resource_records, s.alias_target, s.health_check_id,
        s.traffic_policy_instance_id, s.cidr_routing_config,
        s.geo_proximity_location) := by
  simp [decodeRRSTail, decodeField, rrs_getKey_ttl, rrs_getKey_resource_records,
    rrs_getKey_alias_target, rrs_getKey_health_check_id,
    rrs_getKey_traffic_policy_instance_id, rrs_getKey_cidr_routing_config,
    rrs_getKey_geo_proximity_location,
    decodeOpt_str, decodeOpt_num,
    decodeOpt_optJson (fun rs => Json.arr (rs.map resourceRecordToJson))
      decodeRecordList (fun _ h => Json.noConfusion h) decodeRecordList_toJson,
    decodeOpt_optJson aliasTargetToJson decodeAliasTarget
      (fun a h => by obtain ⟨x, y, z⟩ := a; exact Json.noConfusion h)
      decodeAliasTarget_toJson,
    decodeOpt_optJson cidrRoutingConfigToJson decodeCidrRoutingConfig
      (fun c h => by obtain ⟨x, y⟩ := c; exact Json.noConfusion h)
      decodeCidrRoutingConfig_toJson,
    decodeOpt_optJson geoProximityLocationToJson decodeGeoProximityLocation
      (fun g h => by obtain ⟨a, b, c, d⟩ := g; exact Json.noConfusion h)
      decodeGeoProximityLocation_toJson]

/-- Reading back a serialized export record set recovers it exactly. -/
theorem decodeResourceRecordSet_toJson (s : ResourceRecordSet) :
    decodeResourceRecordSet (resourceRecordSetToJson s) = some s := by
  simp [decodeResourceRecordSet, decodeRRSHead_toJson, decodeRRSTail_toJson]

end Export

/-- C2: mapping a well-formed provider record set to the export schema,
serializing it to JSON, and re-reading that JSON yields every present field
of the source with its value preserved exactly (scalars unchanged,
enumerations as their symbolic name, nested structures field-for-field) and
every absent optional field of the source as absent (it was serialized as
JSON null). -/
theorem export_roundtrip (v : types.ResourceRecordSet) :
    ∃ s : Export.ResourceRecordSet,
      Export.decodeResourceRecordSet
        (Export.resourceRecordSetToJson (Export.ResourceRecordSet.fromProvider v)) =
        some s ∧
      s.name = v.name ∧
      s.type = v.type.as_str ∧
      s.set_identifier = v.set_identifier ∧
      s.weight = v.weight ∧
      s.region = v.region.map types.ResourceRecordSetRegion.as_str ∧
      s.geo_location = v.geo_location.map Export.GeoLocation.fromProvider ∧
      s.failover = v.failover.map types.ResourceRecordSetFailover.as_str ∧
      s.multi_value_answer = v.multi_value_answer ∧
      s.ttl = v.ttl ∧
      s.resource_records =
        v.resource_records.map (List.map Export.ResourceRecord.fromProvider) ∧
      s.alias_target = v.alias_target.map Export.AliasTarget.fromProvider ∧
      s.health_check_id = v.health_check_id ∧
      s.traffic_policy_instance_id = v.traffic_policy_instance_id ∧
      s.cidr_routing_config =
        v.cidr_routing_config.map Export.CidrRoutingConfig.fromProvider ∧
      s.geo_proximity_location =
        v.geo_proximity_location.map Export.GeoProximityLocation.fromProvider :=
  ⟨Export.ResourceRecordSet.fromProvider v,
    Export.decodeResourceRecordSet_toJson (Export.ResourceRecordSet.fromProvider v),
    rfl, rfl, rfl, rfl, rfl, rfl, rfl, rfl, rfl, rfl, rfl, rfl, rfl, rfl, rfl⟩

/-- C10: every serialized record-set object contains exactly the fifteen
schema keys, in declaration order, and an absent optional field appears as
its key with value JSON null — the key is never omitted. -/
theorem serialized_record_shape (s : Export.ResourceRecordSet) :
    (Export.resourceRecordSetToJson s).keys =
      ["name", "type", "set_identifier", "weight", "region", "geo_location",
       "failover", "multi_value_answer", "ttl", "resource_records",
       "alias_target", "health_check_id", "traffic_policy_instance_id",
       "cidr_routing_config", "geo_proximity_location"] ∧
    (s.set_identifier = none →
      (Export.resourceRecordSetToJson s).getKey "set_identifier" = some Json.null) ∧
    (s.weight = none →
      (Export.resourceRecordSetToJson s).getKey "weight" = some Json.null) ∧
    (s.region = none →
      (Export.resourceRecordSetToJson s).getKey "region" = some Json.null) ∧
    (s.geo_location = none →
      (Export.resourceRecordSetToJson s).getKey "geo_location" = some Json.null) ∧
    (s.failover = none →
      (Export.resourceRecordSetToJson s).getKey "failover" = some Json.null) ∧
    (s.multi_value_answer = none →
      (Export.resourceRecordSetToJson s).getKey "multi_value_answer" =
        some Json.null) ∧
    (s.ttl = none →
      (Export.resourceRecordSetToJson s).getKey "ttl" = some Json.null) ∧
    (s.resource_records = none →
      (Export.resourceRecordSetToJson s).getKey "resource_records" =
        some Json.null) ∧
    (s.alias_target = none →
      (Export.resourceRecordSetToJson s).getKey "alias_target" = some Json.null) ∧
    (s.health_check_id = none →
      (Export.resourceRecordSetToJson s).getKey "health_check_id" =
        some Json.null) ∧
    (s.traffic_policy_instance_id = none →
      (Export.resourceRecordSetToJson s).getKey "traffic_policy_instance_id" =
        some Json.null) ∧
    (s.cidr_routing_config = none →
      (Export.resourceRecordSetToJson s).getKey "cidr_routing_config" =
        some Json.null) ∧
    (s.geo_proximity_location = none →
      (Export.resourceRecordSetToJson s).getKey "geo_proximity_location" =
        some Json.null) := by
  refine ⟨rfl, ?_, ?_, ?_, ?_, ?_, ?_, ?_, ?_, ?_, ?_, ?_, ?_, ?_⟩ <;>
    intro h <;>
    simp [Export.rrs_getKey_set_identifier, Export.rrs_getKey_weight,
      Export.rrs_getKey_region, Export.rrs_getKey_geo_location,
      Export.rrs_getKey_failover, Export.rrs_getKey_multi_value_answer,
      Export.rrs_getKey_ttl, Export.rrs_getKey_resource_records,
      Export.rrs_getKey_alias_target, Export.rrs_getKey_health_check_id,
      Export.rrs_getKey_traffic_policy_instance_id,
      Export.rrs_getKey_cidr_routing_config,
      Export.rrs_getKey_geo_proximity_location, h, optJson]

/-- Witness for C10 at a concrete alias-style record with no TTL. -/
theorem serialized_record_shape_witness :
    (Export.resourceRecordSetToJson
      { name := "example.com.", type := "A", set_identifier := none,
        weight := none, region := none, geo_location := none, failover := none,
        multi_value_answer := none, ttl := none, resource_records := none,
        alias_target := some { hosted_zone_id := "Z2", dns_name := "lb.example.",
                               evaluate_target_health := true },
        health_check_id := none, traffic_policy_instance_id := none,
        cidr_routing_config := none,
        geo_proximity_location := none }).getKey "ttl" = some Json.null :=
  (serialized_record_shape _).2.2.2.2.2.2.2.1 rfl

/-- Witness for C9 at a concrete latency record in us-east-1. -/
theorem mapper_enum_to_string_witness :
    (Export.ResourceRecordSet.fromProvider
      { name := "api.example.com.", type := .cname,
        set_identifier := some "us-east-1-api", weight := none,
        region := some .usEast1, geo_location := none, failover := none,
        multi_value_answer := none, ttl := some 60,
        resource_records := some [{ value := "api-use1.example.com." }],
        alias_target := none, health_check_id := none,
        traffic_policy_instance_id := none, cidr_routing_config := none,
        geo_proximity_location := none }).failover = none :=
  (mapper_enum_to_string _).2.2.2.2 rfl

/-! Orchestration lemmas. -/

theorem except_ok_bind (a : α) (f : α → Except ε β) :
    Except.bind (Except.ok a) f = f a := rfl

theorem except_error_bind (e : ε) (f : α → Except ε β) :
    Except.bind (Except.error e) f = Except.error e := rfl

theorem get_hosted_zone_prompt (env : Env) (c : Int) (zs : List types.HostedZone)
    (hc : env.get_hosted_zone_count = .ok c)
    (hz : env.list_hosted_zones = .ok zs) :
    get_hosted_zone env = env.prompt (selection_options zs) := by
  unfold get_hosted_zone
  rw [hc, hz]
  rfl

theorem runMain_of_hz (env : Env) (z : types.HostedZone)
    (h : get_hosted_zone env = .ok (.HZ z)) :
    runMain env = (get_export_data env z).map Export.hostedZoneExportToJson := by
  unfold runMain
  rw [h]
  show (get_export_data env z).bind
      (fun e => pure (Export.hostedZoneExportToJson e)) =
    (get_export_data env z).map Export.hostedZoneExportToJson
  cases get_export_data env z <;> rfl

theorem runMain_of_all (env : Env) (zs : List types.HostedZone)
    (h : get_hosted_zone env = .ok (.All zs)) :
    runMain env = (export_each env zs).map
      (fun exports => Json.arr (exports.map Export.hostedZoneExportToJson)) := by
  unfold runMain
  rw [h]
  show (export_each env zs).bind
      (fun exports => pure (Json.arr (exports.map Export.hostedZoneExportToJson))) =
    (export_each env zs).map
      (fun exports => Json.arr (exports.map Export.hostedZoneExportToJson))
  cases export_each env zs <;> rfl

theorem get_export_data_ok (env : Env) (z : types.HostedZone)
    (recs : List types.ResourceRecordSet)
    (h : env.list_resource_record_sets z.id = .ok recs) :
    get_export_data env z = .ok (Export.HostedZoneExport.new z.id z.name recs) := by
  unfold get_export_data
  rw [h]
  rfl

theorem export_each_ok (env : Env)
    (recs : types.HostedZone → List types.ResourceRecordSet) :
    ∀ zs : List types.HostedZone,
      (∀ z ∈ zs, env.list_resource_record_sets z.id = .ok (recs z)) →
      export_each env zs =
        .ok (zs.map fun z => Export.HostedZoneExport.new z.id z.name (recs z)) := by
  intro zs
  induction zs with
  | nil => intro _; rfl
  | cons z rest ih =>
    intro h
    show (get_export_data env z).bind
        (fun e => (export_each env rest).bind fun es => pure (e :: es)) = _
    rw [get_export_data_ok env z (recs z) (h z (List.mem_cons_self z rest)),
      ih (fun z' hm => h z' (List.mem_cons_of_mem z hm))]
    rfl

theorem export_each_fails (env : Env) :
    ∀ zs : List types.HostedZone, ∀ z ∈ zs,
      (∃ e, env.list_resource_record_sets z.id = .error e) →
      ∃ e, export_each env zs = .error e := by
  intro zs
  induction zs with
  | nil => intro z hm _; cases hm
  | cons a rest ih =>
    intro z hm he
    obtain ⟨e, hrec⟩ := he
    rcases List.mem_cons.mp hm with rfl | hm'
    · refine ⟨e, ?_⟩
      show Except.bind (get_export_data env z)
          (fun ex => Except.bind (export_each env rest) fun es => pure (ex :: es)) = _
      have hge : get_export_data env z = .error e := by
        unfold get_export_data
        rw [hrec]
        rfl
      rw [hge, except_error_bind]
    · cases hh : get_export_data env a with
      | error e' =>
        refine ⟨e', ?_⟩
        show Except.bind (get_export_data env a)
            (fun ex => Except.bind (export_each env rest) fun es => pure (ex :: es)) = _
        rw [hh, except_error_bind]
      | ok ex =>
        obtain ⟨e', hrest⟩ := ih z hm' ⟨e, hrec⟩
        refine ⟨e', ?_⟩
        show Except.bind (get_export_data env a)
            (fun ex => Except.bind (export_each env rest) fun es => pure (ex :: es)) = _
        rw [hh, except_ok_bind, hrest, except_error_bind]

/-- C6: for every hosted-zone list of length N the Selection Flow presents
exactly N+1 options — the "All" sentinel always first, followed by one
option per zone labeled by that zone's name in provider-returned order —
and when the provider calls succeed the prompt is invoked with exactly this
option list. -/
theorem selection_flow_options (zs : List types.HostedZone) (env : Env) (c : Int) :
    (selection_options zs).length = zs.length + 1 ∧
    (selection_options zs).head? = some (HZOption.All zs) ∧
    (selection_options zs).tail = zs.map HZOption.HZ ∧
    (selection_options zs).map HZOption.display =
      "All" :: zs.map types.HostedZone.name ∧
    (env.get_hosted_zone_count = .ok c → env.list_hosted_zones = .ok zs →
      get_hosted_zone env = env.prompt (selection_options zs)) := by
  refine ⟨by simp [selection_options], rfl, rfl, ?_, ?_⟩
  · simp [selection_options, HZOption.display, Function.comp]
  · intro hc hl
    exact get_hosted_zone_prompt env c zs hc hl

/-- Witness for C6 with two concrete zones. -/
theorem selection_flow_options_witness :
    get_hosted_zone envTwoZones =
      envTwoZones.prompt (selection_options [zoneA, zoneB]) :=
  (selection_flow_options [zoneA, zoneB] envTwoZones 2).2.2.2.2 rfl rfl

/-- C3: when every selected zone's record listing succeeds, the export loop
produces one export per zone in the original zone-listing order, and each
zone's export maps its record-set list element-for-element in the
provider-returned order. -/
theorem export_order_preservation (env : Env) (zs : List types.HostedZone)
    (recs : types.HostedZone → List types.ResourceRecordSet)
    (h : ∀ z ∈ zs, env.list_resource_record_sets z.id = .ok (recs z)) :
    export_each env zs =
      .ok (zs.map fun z => Export.HostedZoneExport.new z.id z.name (recs z)) ∧
    ∀ (id name : String) (records : List types.ResourceRecordSet),
      (Export.HostedZoneExport.new id name records).record_sets =
        records.map Export.ResourceRecordSet.fromProvider :=
  ⟨export_each_ok env recs zs h, fun _ _ _ => rfl⟩

/-- Witness for C3 with two concrete zones, one record each. -/
theorem export_order_preservation_witness :
    export_each envTwoZones [zoneA, zoneB] =
      .ok [Export.HostedZoneExport.new "Z1" "example.com." [simpleARecord],
           Export.HostedZoneExport.new "Z2" "other.org." [simpleARecord]] :=
  (export_order_preservation envTwoZones [zoneA, zoneB] (fun _ => [simpleARecord])
    (fun _ _ => rfl)).1

/-- C4: the serialized root written on success is a single JSON object when
the operator selected one specific zone and a JSON array when the operator
selected the "All" sentinel; no JSON value has both root shapes. -/
theorem main_root_shape (env : Env) :
    (∀ z j, get_hosted_zone env = .ok (.HZ z) → runMain env = .ok j →
      j.isObj = true) ∧
    (∀ zs j, get_hosted_zone env = .ok (.All zs) → runMain env = .ok j →
      j.isArr = true) ∧
    (∀ j : Json, ¬(j.isObj = true ∧ j.isArr = true)) := by
  refine ⟨?_, ?_, ?_⟩
  · intro z j h1 h2
    rw [runMain_of_hz env z h1] at h2
    cases hge : get_export_data env z with
    | error e =>
      rw [hge] at h2
      exact Except.noConfusion h2
    | ok ex =>
      rw [hge] at h2
      have hj : Export.hostedZoneExportToJson ex = j := Except.ok.inj h2
      rw [← hj]
      rfl
  · intro zs j h1 h2
    rw [runMain_of_all env zs h1] at h2
    cases hge : export_each env zs with
    | error e =>
      rw [hge] at h2
      exact Except.noConfusion h2
    | ok exports =>
      rw [hge] at h2
      have hj : Json.arr (exports.map Export.hostedZoneExportToJson) = j :=
        Except.ok.inj h2
      rw [← hj]
      rfl
  · intro j hj
    obtain ⟨h1, h2⟩ := hj
    cases j <;> simp [Json.isObj, Json.isArr] at h1 h2

/-- Witness for C4: one selected zone yields an object root. -/
theorem main_root_shape_witness :
    Json.isObj (Export.hostedZoneExportToJson
      (Export.HostedZoneExport.new "Z1" "example.com." [simpleARecord])) = true :=
  (main_root_shape envOneZone).1 zoneA _ rfl rfl

/-- C5: if any provider call fails (zone count, zone listing, or record
listing for any selected zone) or the operator aborts the selection prompt,
the run yields an error before the export-file write: no file content is
produced and the exit code is nonzero. -/
theorem run_aborts_before_write (env : Env)
    (h : (∃ e, env.get_hosted_zone_count = .error e) ∨
         (∃ e, env.list_hosted_zones = .error e) ∨
         (∃ zs e, env.list_hosted_zones = .ok zs ∧
            env.prompt (selection_options zs) = .error e) ∨
         (∃ z e, get_hosted_zone env = .ok (.HZ z) ∧
            env.list_resource_record_sets z.id = .error e) ∨
         (∃ zs, get_hosted_zone env = .ok (.All zs) ∧
            ∃ z ∈ zs, ∃ e, env.list_resource_record_sets z.id = .error e)) :
    writtenFiles (runMain env) = [] ∧ exitCode (runMain env) ≠ 0 := by
  have herr : ∃ e, runMain env = .error e := by
    rcases h with ⟨e, hc⟩ | ⟨e, hl⟩ | ⟨zs, e, hl, hp⟩ | ⟨z, e, hsel, hrec⟩ |
      ⟨zs, hsel, z, hmem, e, hrec⟩
    · refine ⟨e, ?_⟩
      have hgz : get_hosted_zone env = .error e := by
        unfold get_hosted_zone
        rw [hc]
        rfl
      unfold runMain
      rw [hgz]
      rfl
    · cases hc : env.get_hosted_zone_count with
      | error e' =>
        refine ⟨e', ?_⟩
        have hgz : get_hosted_zone env = .error e' := by
          unfold get_hosted_zone
          rw [hc]
          rfl
        unfold runMain
        rw [hgz]
        rfl
      | ok c =>
        refine ⟨e, ?_⟩
        have hgz : get_hosted_zone env = .error e := by
          unfold get_hosted_zone
          rw [hc, hl]
          rfl
        unfold runMain
        rw [hgz]
        rfl
    · cases hc : env.get_hosted_zone_count with
      | error e' =>
        refine ⟨e', ?_⟩
        have hgz : get_hosted_zone env = .error e' := by
          unfold get_hosted_zone
          rw [hc]
          rfl
        unfold runMain
        rw [hgz]
        rfl
      | ok c =>
        refine ⟨e, ?_⟩
        have hgz : get_hosted_zone env = .error e := by
          rw [get_hosted_zone_prompt env c zs hc hl]
          exact hp
        unfold runMain
        rw [hgz]
        rfl
    · refine ⟨e, ?_⟩
      have hge : get_export_data env z = .error e := by
        unfold get_export_data
        rw [hrec]
        rfl
      rw [runMain_of_hz env z hsel, hge]
      rfl
    · obtain ⟨e', hee⟩ := export_each_fails env zs z hmem ⟨e, hrec⟩
      refine ⟨e', ?_⟩
      rw [runMain_of_all env zs hsel, hee]
      rfl
  obtain ⟨e, he⟩ := herr
  rw [he]
  exact ⟨rfl, by simp [exitCode]⟩

/-- Witness for C5: an aborted selection prompt writes nothing and exits
nonzero. -/
theorem run_aborts_before_write_witness :
    writtenFiles (runMain envAborted) = [] ∧ exitCode (runMain envAborted) ≠ 0 :=
  run_aborts_before_write envAborted
    (Or.inr (Or.inr (Or.inl ⟨[zoneA, zoneB], Err.interactionAborted, rfl, rfl⟩)))

/-- C7: with zero hosted zones, selecting the "All" sentinel yields a
successful run whose export content is the empty JSON array — one file
written, exit code 0, no error. -/
theorem empty_account_all (env : Env) (c : Int)
    (hc : env.get_hosted_zone_count = .ok c)
    (hl : env.list_hosted_zones = .ok [])
    (hp : env.prompt (selection_options []) = .ok (.All [])) :
    runMain env = .ok (Json.arr []) ∧
    writtenFiles (runMain env) = [Json.arr []] ∧
    exitCode (runMain env) = 0 := by
  have hgz : get_hosted_zone env = .ok (.All []) := by
    rw [get_hosted_zone_prompt env c [] hc hl]
    exact hp
  have hrm : runMain env = .ok (Json.arr []) := by
    rw [runMain_of_all env [] hgz]
    rfl
  rw [hrm]
  exact ⟨rfl, rfl, rfl⟩

/-- Witness for C7: a concrete zero-zone environment. -/
theorem empty_account_all_witness :
    runMain envNoZones = .ok (Json.arr []) :=
  (empty_account_all envNoZones 0 rfl rfl rfl).1

end Route53
